import Mathlib

/-!
Shallow embedding of the BoundDel frontend (Next.js boundary-delineation app):
the layer/bounding-box state management in `frontend/app/page.tsx` (and the
variant in `src/unnamed/part_002`), the sidebar drag-reorder in
`frontend/components/Sidebar/Sidebar.tsx`, and the inference proxy route in
`frontend/app/api/delineate/route.ts`.

Coordinates are modelled as rationals (the code manipulates JS numbers with
ordinary arithmetic and comparisons; no floating-point rounding is relevant to
the properties proved here). Timestamps (`Date.now()`) are modelled as a natural
number passed in explicitly.
-/

namespace BoundDel

/-- Geographic bounds stored as `[[south, west], [north, east]]`
(`lib/types.ts`, `rasterBounds` / `BoundingBox.bounds` / `FeatureMetadata.bounds`). -/
structure Bounds where
  south : ℚ
  west : ℚ
  north : ℚ
  east : ℚ
deriving Repr, DecidableEq

/-- The Region invariant of the spec: south < north, west < east, latitudes in
[-90, 90] and longitudes in [-180, 180]. -/
def ValidBounds (b : Bounds) : Prop :=
  -90 ≤ b.south ∧ b.south ≤ 90 ∧ -90 ≤ b.north ∧ b.north ≤ 90 ∧
  -180 ≤ b.west ∧ b.west ≤ 180 ∧ -180 ≤ b.east ∧ b.east ≤ 180 ∧
  b.south < b.north ∧ b.west < b.east

instance (b : Bounds) : Decidable (ValidBounds b) := by
  unfold ValidBounds; infer_instance

/-- Modelled from the spec: `validateBBox` is imported from
`@/lib/delineateAnything`, a module absent from the source tree (only its
callers are present). The spec invariant (§3) says bounds must satisfy
south < north and west < east, with all four values within valid
latitude/longitude ranges ([-90,90], [-180,180]); valid bounds pass, anything
else yields a validation error. -/
def validateBBox (b : Bounds) : Bool :=
  decide (ValidBounds b)

/-- Status of a Region (`lib/types.ts` `BoundingBox.status`). -/
inductive BBoxStatus
  | pending
  | processing
  | completed
  | error
deriving Repr, DecidableEq

/-- A Region / bounding box (`lib/types.ts` `BoundingBox`), timestamps as ℕ. -/
structure BoundingBox where
  id : String
  bounds : Bounds
  status : BBoxStatus
  createdAt : ℕ
deriving Repr, DecidableEq

/-- `handleBoundingBoxCreated` (`src/unnamed/part_002`, lines 71-88): validate
the drawn bounds; on failure alert and leave the store unchanged; on success
append a new pending bounding box with a timestamp-derived id. Returns the new
store and whether the validation alert fired. -/
def handleBoundingBoxCreated (store : List BoundingBox) (now : ℕ) (b : Bounds) :
    List BoundingBox × Bool :=
  if validateBBox b then
    (store ++ [{ id := "bbox-" ++ toString now, bounds := b,
                 status := BBoxStatus.pending, createdAt := now }], false)
  else
    (store, true)

/-- The inline bounds validation of `handleGenerateBoundaries`
(`frontend/app/page.tsx`, lines 85-102): the range check (lines 91-96) rejects
any of the four values outside its range, then the order check (lines 98-102)
rejects south ≥ north or west ≥ east. Returns `true` when generation proceeds
past both guards. -/
def generateBoundariesGuard (b : Bounds) : Bool :=
  if b.south < -90 ∨ b.south > 90 ∨ b.north < -90 ∨ b.north > 90 ∨
     b.west < -180 ∨ b.west > 180 ∨ b.east < -180 ∨ b.east > 180 then
    false
  else if b.south ≥ b.north ∨ b.west ≥ b.east then
    false
  else
    true

/-- JS `a || b` for an optional string `a`: an absent or empty (falsy) string
falls through to `b`. -/
def jsOrStr (a : Option String) (b : String) : String :=
  match a with
  | some s => if s = "" then b else s
  | none => b

/-- JS `a || b` for optional numeric geo keys (page.tsx line 170): an absent
key or the falsy value 0 falls through to `b`. -/
def jsOrNum (a b : Option ℕ) : Option ℕ :=
  match a with
  | some n => if n = 0 then b else some n
  | none => b

/-- The wait budget of the delineate proxy route
(`frontend/app/api/delineate/route.ts`, line 10: `setTimeout(... , 600000)`),
in milliseconds. -/
def proxyTimeoutMs : ℕ := 600000

/-- Outcome of the single upstream `fetch` in the proxy route: a response with
a status and a JSON payload, a thrown non-abort error (network/connection
failure) carrying a message, or the abort fired by the timeout. -/
inductive UpstreamOutcome
  | response (status : ℕ) (payload : String)
  | networkError (message : String)
  | abortError
deriving Repr, DecidableEq

/-- Body of the reply of the proxy route: either the upstream JSON payload passed
through, or an object whose `error` field is the given message. -/
inductive ResponseBody
  | json (payload : String)
  | errorObj (message : String)
deriving Repr, DecidableEq

/-- `POST` of `frontend/app/api/delineate/route.ts` (lines 3-33) as a function
of the upstream outcome, returning (HTTP status, body). `response.ok` is
status in [200, 299]; a non-ok response is passed through with its own status;
an `AbortError` yields 504 with the timeout message; any other error yields 500
with `error.message` or, when that is empty, `Failed to process request`. -/
def delineatePOST (o : UpstreamOutcome) : ℕ × ResponseBody :=
  match o with
  | UpstreamOutcome.response status payload =>
    if 200 ≤ status ∧ status ≤ 299 then
      (200, ResponseBody.json payload)
    else
      (status, ResponseBody.json payload)
  | UpstreamOutcome.networkError message =>
    (500, ResponseBody.errorObj (jsOrStr (some message) "Failed to process request"))
  | UpstreamOutcome.abortError =>
    (504, ResponseBody.errorObj "Request timeout - processing took too long")

/-- A coordinate position of a GeoJSON geometry (`[lon, lat]`). -/
structure Position where
  lon : ℚ
  lat : ℚ
deriving Repr, DecidableEq

/-- A GeoJSON feature as the upload pipeline consumes it: the optional `name`
and `id` properties and the positions of its geometry, in order. -/
structure Feature where
  propName : Option String
  propId : Option String
  coords : List Position
deriving Repr, DecidableEq

/-- A native bounding box `[minX, minY, maxX, maxY]`
(`image.getBoundingBox()`, page.tsx line 161; also the output of `@turf/bbox`). -/
structure BBox4 where
  minX : ℚ
  minY : ℚ
  maxX : ℚ
  maxY : ℚ
deriving Repr, DecidableEq

/-- One step of the `@turf/bbox` fold: widen the accumulated box to cover one
more position. -/
def turfStep (acc : BBox4) (q : Position) : BBox4 :=
  ⟨min acc.minX q.lon, min acc.minY q.lat, max acc.maxX q.lon, max acc.maxY q.lat⟩

/-- `@turf/bbox` over the positions of a geometry: a fold of min/max giving
`[minX, minY, maxX, maxY]`. turf starts the fold from infinite bounds, so a
geometry with no positions yields infinite values, which ℚ cannot represent:
that degenerate case is `none`. -/
def turfBbox (ps : List Position) : Option BBox4 :=
  match ps with
  | [] => none
  | p :: rest => some (rest.foldl turfStep ⟨p.lon, p.lat, p.lon, p.lat⟩)

/-- `[[bb[1], bb[0]], [bb[3], bb[2]]]` — rearrange a `[minX, minY, maxX, maxY]`
box into `[[south, west], [north, east]]` bounds (page.tsx lines 121, 237, 276,
320). -/
def swapToBounds (bb : BBox4) : Bounds :=
  ⟨bb.minY, bb.minX, bb.maxY, bb.maxX⟩

/-- Per-feature metadata (`lib/types.ts` `FeatureMetadata`). `bounds` is `none`
exactly when the feature geometry has no positions (where the JS code would
store infinite bounds). -/
structure FeatureMetadata where
  id : String
  name : String
  bounds : Option Bounds
deriving Repr, DecidableEq

/-- The per-feature metadata map shared by the GeoJSON and GeoPackage upload
paths (page.tsx lines 271-278 and 315-322): the id is `<pre>-feature-<idx>`,
the display name is `properties?.name || properties?.id || Feature <idx+1>`,
and the bounds are the turf bbox of the geometry rearranged to
`[[south, west], [north, east]]`. -/
def featureMeta (pre : String) (idx : ℕ) (f : Feature) : FeatureMetadata :=
  { id := pre ++ "-feature-" ++ toString idx
    name := jsOrStr f.propName (jsOrStr f.propId ("Feature " ++ toString (idx + 1)))
    bounds := (turfBbox f.coords).map swapToBounds }

/-- The delineation-result metadata map (page.tsx lines 116-123): ids are
`delineated-feature-<idx>` and the positional fallback label is `Field <idx+1>`. -/
def delineateFeatureMeta (idx : ℕ) (f : Feature) : FeatureMetadata :=
  { id := "delineated-feature-" ++ toString idx
    name := jsOrStr f.propName (jsOrStr f.propId ("Field " ++ toString (idx + 1)))
    bounds := (turfBbox f.coords).map swapToBounds }

/-- Layer type tag (`lib/types.ts`). -/
inductive LayerType
  | vector
  | raster
deriving Repr, DecidableEq

/-- A layer (`lib/types.ts` `Layer`). `data` carries the feature collection of
a vector layer; `description` is optional in the TS type but set by every
creation site, so it is kept plain here. -/
structure Layer where
  id : String
  name : String
  type : LayerType
  data : Option (List Feature)
  visible : Bool
  color : String
  description : String
  features : Option (List FeatureMetadata)
  rasterUrl : Option String
  rasterBounds : Option Bounds
deriving Repr, DecidableEq

/-- `file.name.replace` with the pattern "a dot, then one or more characters
that are neither a dot nor a slash, at the end of the name", replacing the
match with the empty string (page.tsx lines 231 and 328): strips a final
extension; a name without such a suffix is unchanged. -/
def stripExtension (s : String) : String :=
  let rev := s.data.reverse
  let ext := rev.takeWhile (fun c => c != '.' && c != '/')
  match rev.drop ext.length with
  | '.' :: rest => if ext.isEmpty then s else String.mk rest.reverse
  | _ => s

/-- The parsed JSON of an uploaded `.geojson`/`.json` file, after the
discriminant check on its `type` field (page.tsx lines 310-312): a
FeatureCollection, a single Feature, or anything else. -/
inductive ParsedJson
  | featureCollection (features : List Feature)
  | feature (f : Feature)
  | other
deriving Repr, DecidableEq

/-- The vector layer built by the GeoJSON upload path (page.tsx lines 312-335):
named after the file with its extension stripped, purple, visible, with one
metadata entry per feature. -/
def mkGeoJSONLayer (fileName : String) (now : ℕ) (fs : List Feature) : Layer :=
  { id := "layer-" ++ toString now
    name := stripExtension fileName
    type := LayerType.vector
    data := some fs
    visible := true
    color := "#a855f7"
    description := "User uploaded layer (" ++ toString fs.length ++ " features)"
    features := some (List.mapIdx (featureMeta "geojson") fs)
    rasterUrl := none
    rasterBounds := none }

/-- The JSON branch of `handleFileUpload` (page.tsx lines 307-345): a
FeatureCollection is ingested as one new layer; a single Feature is wrapped
into a one-element collection first; anything else raises the invalid-format
alert and adds nothing. Returns the new store and whether the alert fired. -/
def ingestGeoJSON (fileName : String) (now : ℕ) (json : ParsedJson)
    (store : List Layer) : List Layer × Bool :=
  match json with
  | ParsedJson.featureCollection fs => (mkGeoJSONLayer fileName now fs :: store, false)
  | ParsedJson.feature f => (mkGeoJSONLayer fileName now [f] :: store, false)
  | ParsedJson.other => (store, true)

/-- A feature table of an opened GeoPackage: its name and the GeoJSON features
iterated from its rows (page.tsx lines 258-267). -/
structure GpkgTable where
  name : String
  features : List Feature
deriving Repr, DecidableEq

/-- The layer built for one non-empty GeoPackage table (page.tsx lines
282-291). The color is drawn from `Math.random()` per table; it is modelled as
a caller-supplied function of the table name. -/
def mkGpkgLayer (fileName : String) (now : ℕ) (colorOf : String → String)
    (t : GpkgTable) : Layer :=
  { id := "layer-" ++ t.name ++ "-" ++ toString now
    name := t.name
    type := LayerType.vector
    data := some t.features
    visible := true
    color := colorOf t.name
    description := "Imported from " ++ fileName ++ " - Table: " ++ t.name ++
      " (" ++ toString t.features.length ++ " features)"
    features := some (List.mapIdx (featureMeta t.name) t.features)
    rasterUrl := none
    rasterBounds := none }

/-- The GeoPackage branch of `handleFileUpload` (page.tsx lines 247-304):
enumerate the feature tables, build one layer per non-empty table, prepend
them all when at least one exists, otherwise raise the
`No features found in GeoPackage` alert. Returns the new store and whether
that empty-result alert fired. -/
def ingestGpkg (fileName : String) (now : ℕ) (colorOf : String → String)
    (tables : List GpkgTable) (store : List Layer) : List Layer × Bool :=
  if ((tables.filter (fun t => !t.features.isEmpty)).map
      (mkGpkgLayer fileName now colorOf)).isEmpty then
    (store, true)
  else
    ((tables.filter (fun t => !t.features.isEmpty)).map
      (mkGpkgLayer fileName now colorOf) ++ store, false)

/-- A parsed GeoTIFF as the upload pipeline consumes it: dimensions, the
per-band sample arrays of `readRasters()` indexed by pixel, whether band 0 is
a Float32/Float64 array, the native bounding box, and the two geo keys the
code reads. Samples are ℚ; a non-float raster has integer typed arrays, so its
samples are integral (a hypothesis where it matters). -/
structure GeoTiff where
  width : ℕ
  height : ℕ
  bands : List (ℕ → ℚ)
  isFloat : Bool
  bbox : BBox4
  projectedCSTypeGeoKey : Option ℕ
  geographicTypeGeoKey : Option ℕ

/-- JS `Math.round`: round half toward positive infinity. -/
def jsRound (q : ℚ) : ℤ := ⌊q + 1/2⌋

/-- ECMAScript ToUint8Clamp, the conversion applied when a number is stored
into the `Uint8ClampedArray` behind `ImageData.data`: clamp to [0, 255],
rounding ties to even. -/
def toUint8Clamp (q : ℚ) : ℤ :=
  if q ≤ 0 then 0
  else if 255 ≤ q then 255
  else
    let f := ⌊q⌋
    if q - f < 1/2 then f
    else if 1/2 < q - f then f + 1
    else if f % 2 = 0 then f else f + 1

/-- One channel value as written by the pixel loop (page.tsx lines 221-223):
`isFloat ? Math.max(0, Math.min(255, Math.round(v * 255))) : v`, stored into a
`Uint8ClampedArray` element. `v || 0` is the identity on rational samples (it
differs only on NaN, which ℚ does not contain). -/
def channelValue (isFloat : Bool) (v : ℚ) : ℤ :=
  if isFloat then toUint8Clamp ((max 0 (min 255 (jsRound (v * 255))) : ℤ) : ℚ)
  else toUint8Clamp v

/-- The RGBA quadruple the pixel loop writes for pixel `i` (page.tsx lines
208-225): band 0 is red; bands 1 and 2, when present, are green and blue,
otherwise band 0 is replicated; alpha is 255. With no bands at all,
`rasters[0]` is undefined, the loop throws and the upload handler catches:
`none`. -/
def rasterPixel (g : GeoTiff) (i : ℕ) : Option (ℤ × ℤ × ℤ × ℤ) :=
  match g.bands with
  | [] => none
  | b0 :: rest =>
    let rv := b0 i
    let gv := match rest[0]? with | some b1 => b1 i | none => rv
    let bv := match rest[1]? with | some b2 => b2 i | none => rv
    some (channelValue g.isFloat rv, channelValue g.isFloat gv,
          channelValue g.isFloat bv, 255)

/-- Result of the CRS normalization step: the final `[minX, minY, maxX, maxY]`
bounds and whether the reprojection-failure warning was alerted. -/
structure NormalizeResult where
  finalBounds : BBox4
  warned : Bool
deriving Repr, DecidableEq

/-- The CRS handling of the GeoTIFF path (page.tsx lines 166-194).
`reproject c p` models `proj4(EPSG:<c>, EPSG:4326, p)`, `none` when proj4
throws (unsupported or unknown system). The guard is
`epsgCode && epsgCode !== 4326`: an absent code, the falsy code 0, or 4326
passes the native bounds through untouched; otherwise the two corners are
reprojected, and on any failure the native bounds are kept and the warning
alert fires. -/
def normalizeBounds (reproject : ℕ → ℚ × ℚ → Option (ℚ × ℚ))
    (epsgCode : Option ℕ) (bb : BBox4) : NormalizeResult :=
  match epsgCode with
  | none => ⟨bb, false⟩
  | some c =>
    if c ≠ 0 ∧ c ≠ 4326 then
      match reproject c (bb.minX, bb.minY), reproject c (bb.maxX, bb.maxY) with
      | some (minLon, minLat), some (maxLon, maxLat) =>
        ⟨⟨minLon, minLat, maxLon, maxLat⟩, false⟩
      | _, _ => ⟨bb, true⟩
    else ⟨bb, false⟩

/-- The CRS description string (page.tsx lines 167, 175, 193). -/
def crsDescription (epsgCode : Option ℕ) : String :=
  match epsgCode with
  | some c => if c ≠ 0 ∧ c ≠ 4326 then "EPSG:" ++ toString c else "EPSG:4326 (WGS84)"
  | none => "EPSG:4326 (WGS84)"

/-- The raster layer built by the GeoTIFF upload path (page.tsx lines
229-238): green, visible, with the final bounds rearranged to
`[[south, west], [north, east]]`. -/
def mkRasterLayer (fileName : String) (now : ℕ) (g : GeoTiff)
    (rasterUrl : String) (fb : BBox4) : Layer :=
  { id := "raster-" ++ toString now
    name := stripExtension fileName
    type := LayerType.raster
    data := none
    visible := true
    color := "#10b981"
    description := "Raster layer (" ++ toString g.width ++ "x" ++
      toString g.height ++ ", " ++
      crsDescription (jsOrNum g.projectedCSTypeGeoKey g.geographicTypeGeoKey) ++ ")"
    features := none
    rasterUrl := some rasterUrl
    rasterBounds := some (swapToBounds fb) }

/-- The GeoTIFF branch of `handleFileUpload` (page.tsx lines 150-245): read
the geo keys, normalize the bounds, rasterize (the data URL is abstracted as
`rasterUrl`), and prepend the new raster layer. Returns the new store and
whether the reprojection warning fired. Parse failures (the enclosing
try/catch) alert and leave the store unchanged; they are outside this model. -/
def ingestGeoTiff (reproject : ℕ → ℚ × ℚ → Option (ℚ × ℚ)) (fileName : String)
    (now : ℕ) (g : GeoTiff) (rasterUrl : String) (store : List Layer) :
    List Layer × Bool :=
  let epsgCode := jsOrNum g.projectedCSTypeGeoKey g.geographicTypeGeoKey
  let nr := normalizeBounds reproject epsgCode g.bbox
  (mkRasterLayer fileName now g rasterUrl nr.finalBounds :: store, nr.warned)

/-- The layer built from an inference result (page.tsx lines 116-138). The
description string embeds the result metadata through JS number formatting,
which is abstracted as the caller-supplied `description`. -/
def mkDelineatedLayer (now : ℕ) (rasterName : String) (boundaries : List Feature)
    (description : String) : Layer :=
  { id := "delineated-" ++ toString now
    name := rasterName ++ " - Boundaries"
    type := LayerType.vector
    data := some boundaries
    visible := true
    color := "#ef4444"
    description := description
    features := some (List.mapIdx delineateFeatureMeta boundaries)
    rasterUrl := none
    rasterBounds := none }

/-- `handleToggleLayer` (page.tsx lines 44-48). -/
def handleToggleLayer (i : String) (layers : List Layer) : List Layer :=
  layers.map (fun l => if l.id = i then { l with visible := !l.visible } else l)

/-- `handleRemoveLayer` (page.tsx lines 50-52). -/
def handleRemoveLayer (i : String) (layers : List Layer) : List Layer :=
  layers.filter (fun l => l.id != i)

/-- `handleDragEnd` (`Sidebar.tsx` lines 65-73) followed by
`handleReorderLayers` (page.tsx lines 61-63): a drop without destination is a
no-op; otherwise the dragged item is spliced out at the source index and
re-inserted at the destination index, and the store is replaced with the
result. A drag delivered by the drag-and-drop library always carries a source
index within the list; the out-of-range arm keeps the list unchanged. -/
def handleDragEnd (layers : List Layer) (destination : Option ℕ) (src : ℕ) :
    List Layer :=
  match destination with
  | none => layers
  | some dst =>
    match layers[src]? with
    | some item =>
      let items := layers.take src ++ layers.drop (src + 1)
      items.take dst ++ item :: items.drop dst
    | none => layers

/-- One layer-store operation, covering every mutation the app performs on the
store: the four creation paths, removal, visibility toggle, and drag-reorder. -/
inductive StoreOp
  | uploadGeoJSON (fileName : String) (now : ℕ) (json : ParsedJson)
  | uploadGpkg (fileName : String) (now : ℕ) (colorOf : String → String)
      (tables : List GpkgTable)
  | uploadGeoTiff (reproject : ℕ → ℚ × ℚ → Option (ℚ × ℚ)) (fileName : String)
      (now : ℕ) (g : GeoTiff) (rasterUrl : String)
  | delineate (now : ℕ) (rasterName : String) (boundaries : List Feature)
      (description : String)
  | remove (i : String)
  | toggle (i : String)
  | dragEnd (destination : Option ℕ) (src : ℕ)

/-- Apply one store operation to the layer store. -/
def applyOp (st : List Layer) : StoreOp → List Layer
  | StoreOp.uploadGeoJSON f n j => (ingestGeoJSON f n j st).1
  | StoreOp.uploadGpkg f n c ts => (ingestGpkg f n c ts st).1
  | StoreOp.uploadGeoTiff rp f n g u => (ingestGeoTiff rp f n g u st).1
  | StoreOp.delineate n rn bs d => mkDelineatedLayer n rn bs d :: st
  | StoreOp.remove i => handleRemoveLayer i st
  | StoreOp.toggle i => handleToggleLayer i st
  | StoreOp.dragEnd dest src => handleDragEnd st dest src

/-- Apply a sequence of store operations, first to last. -/
def applyOps (st : List Layer) (ops : List StoreOp) : List Layer :=
  ops.foldl applyOp st

/-- The layers an operation adds to the store (empty for remove, toggle and
reorder; also empty for a rejected upload). -/
def addedLayers : StoreOp → List Layer
  | StoreOp.uploadGeoJSON f n j =>
    match j with
    | ParsedJson.featureCollection fs => [mkGeoJSONLayer f n fs]
    | ParsedJson.feature ft => [mkGeoJSONLayer f n [ft]]
    | ParsedJson.other => []
  | StoreOp.uploadGpkg f n c ts =>
    (ts.filter (fun t => !t.features.isEmpty)).map (mkGpkgLayer f n c)
  | StoreOp.uploadGeoTiff rp f n g u =>
    [mkRasterLayer f n g u (normalizeBounds rp
      (jsOrNum g.projectedCSTypeGeoKey g.geographicTypeGeoKey) g.bbox).finalBounds]
  | StoreOp.delineate n rn bs d => [mkDelineatedLayer n rn bs d]
  | StoreOp.remove _ => []
  | StoreOp.toggle _ => []
  | StoreOp.dragEnd _ _ => []

/-- A run of operations is fresh when every creation step adds layers whose
identifiers are pairwise distinct and absent from the store it extends. The
code derives identifiers from `Date.now()` (plus the table name for
GeoPackage layers) and nothing else enforces this. -/
def FreshRun : List Layer → List StoreOp → Prop
  | _, [] => True
  | st, op :: ops =>
    ((addedLayers op).map Layer.id).Nodup ∧
    (∀ l ∈ addedLayers op, l.id ∉ st.map Layer.id) ∧
    FreshRun (applyOp st op) ops

end BoundDel

namespace BoundDel

theorem validateBBox_iff (b : Bounds) : validateBBox b = true ↔ ValidBounds b := by
  simp [validateBBox]

theorem generateBoundariesGuard_iff (b : Bounds) :
    generateBoundariesGuard b = true ↔ ValidBounds b := by
  unfold generateBoundariesGuard ValidBounds
  by_cases h1 : b.south < -90 ∨ b.south > 90 ∨ b.north < -90 ∨ b.north > 90 ∨
      b.west < -180 ∨ b.west > 180 ∨ b.east < -180 ∨ b.east > 180
  · simp only [h1, if_true]
    constructor
    · intro hfalse; cases hfalse
    · intro hv
      obtain ⟨hs1, hs2, hn1, hn2, hw1, hw2, he1, he2, _, _⟩ := hv
      rcases h1 with h | h | h | h | h | h | h | h <;> linarith
  · simp only [h1, if_false]
    push_neg at h1
    obtain ⟨hs1, hs2, hn1, hn2, hw1, hw2, he1, he2⟩ := h1
    by_cases h2 : b.south ≥ b.north ∨ b.west ≥ b.east
    · simp only [h2, if_true]
      constructor
      · intro hfalse; cases hfalse
      · intro hv
        obtain ⟨_, _, _, _, _, _, _, _, hsn, hwe⟩ := hv
        rcases h2 with h | h <;> linarith
    · simp only [h2, if_false]
      push_neg at h2
      obtain ⟨hsn, hwe⟩ := h2
      constructor
      · intro _
        exact ⟨hs1, hs2, hn1, hn2, hw1, hw2, he1, he2, hsn, hwe⟩
      · intro _; trivial

/-- Claim C1: every Region stored by `handleBoundingBoxCreated` satisfies the
bounds invariant; invalid bounds raise the validation alert and leave the
store untouched; and the inline guard of `handleGenerateBoundaries` proceeds
exactly on valid bounds. -/
theorem c1_regions_valid (store : List BoundingBox) (now : ℕ) (b : Bounds)
    (hstore : ∀ r ∈ store, ValidBounds r.bounds) :
    (∀ r ∈ (handleBoundingBoxCreated store now b).1, ValidBounds r.bounds) ∧
    (¬ ValidBounds b →
      (handleBoundingBoxCreated store now b).1 = store ∧
      (handleBoundingBoxCreated store now b).2 = true) ∧
    (generateBoundariesGuard b = true ↔ ValidBounds b) := by
  refine ⟨?_, ?_, generateBoundariesGuard_iff b⟩
  · intro r hr
    unfold handleBoundingBoxCreated at hr
    by_cases hv : validateBBox b = true
    · simp only [hv, if_true] at hr
      rcases List.mem_append.1 hr with hmem | hmem
      · exact hstore r hmem
      · simp only [List.mem_singleton] at hmem
        subst hmem
        exact (validateBBox_iff b).1 hv
    · simp only [Bool.not_eq_true] at hv
      simp only [hv, Bool.false_eq_true, if_false] at hr
      exact hstore r hr
  · intro hnv
    have hv : validateBBox b = false := by
      rw [← Bool.not_eq_true, validateBBox_iff]; exact hnv
    unfold handleBoundingBoxCreated
    simp [hv]

/-- Witness for C1 at concrete inputs: an empty store, timestamp 5, and the
valid bounds south=10, west=20, north=15, east=25. -/
theorem c1_regions_valid_witness :
    (∀ r ∈ ([] : List BoundingBox), ValidBounds r.bounds) ∧
    ((∀ r ∈ (handleBoundingBoxCreated [] 5 ⟨10, 20, 15, 25⟩).1, ValidBounds r.bounds) ∧
     (¬ ValidBounds ⟨10, 20, 15, 25⟩ →
       (handleBoundingBoxCreated [] 5 ⟨10, 20, 15, 25⟩).1 = [] ∧
       (handleBoundingBoxCreated [] 5 ⟨10, 20, 15, 25⟩).2 = true) ∧
     (generateBoundariesGuard ⟨10, 20, 15, 25⟩ = true ↔ ValidBounds ⟨10, 20, 15, 25⟩)) := by
  constructor
  · intro r hr; cases hr
  · exact c1_regions_valid [] 5 ⟨10, 20, 15, 25⟩ (by intro r hr; cases hr)

/-- Claim C8: the wait budget of the proxy is 10 minutes; exceeding it yields
the 504 timeout response with message
`Request timeout - processing took too long`, distinct in status from every
generic network-failure response (500 with the underlying message); and a
non-2xx upstream response is propagated with its payload and original status. -/
theorem c8_proxy_failures :
    proxyTimeoutMs = 10 * 60 * 1000 ∧
    delineatePOST UpstreamOutcome.abortError =
      (504, ResponseBody.errorObj "Request timeout - processing took too long") ∧
    (∀ m : String, m ≠ "" →
      delineatePOST (UpstreamOutcome.networkError m) = (500, ResponseBody.errorObj m)) ∧
    (∀ m : String,
      (delineatePOST UpstreamOutcome.abortError).1 ≠
        (delineatePOST (UpstreamOutcome.networkError m)).1) ∧
    (∀ (s : ℕ) (p : String), ¬ (200 ≤ s ∧ s ≤ 299) →
      delineatePOST (UpstreamOutcome.response s p) = (s, ResponseBody.json p)) := by
  refine ⟨rfl, rfl, ?_, ?_, ?_⟩
  · intro m hm
    simp [delineatePOST, jsOrStr, hm]
  · intro m
    simp [delineatePOST]
  · intro s p hs
    simp [delineatePOST, hs]

/-- Witness for C8 at concrete inputs: message `connect ECONNREFUSED` and
upstream status 502 with payload `upstream-error`. -/
theorem c8_proxy_failures_witness :
    ("connect ECONNREFUSED" ≠ "" ∧
      delineatePOST (UpstreamOutcome.networkError "connect ECONNREFUSED") =
        (500, ResponseBody.errorObj "connect ECONNREFUSED")) ∧
    (¬ (200 ≤ 502 ∧ 502 ≤ 299) ∧
      delineatePOST (UpstreamOutcome.response 502 "upstream-error") =
        (502, ResponseBody.json "upstream-error")) := by
  have h := c8_proxy_failures
  exact ⟨⟨by decide, h.2.2.1 "connect ECONNREFUSED" (by decide)⟩,
         ⟨by decide, h.2.2.2.2 502 "upstream-error" (by decide)⟩⟩

/-- A drag-reorder always permutes the store (shared by the reorder and
uniqueness developments). -/
theorem handleDragEnd_perm (layers : List Layer) (dest : Option ℕ) (src : ℕ) :
    List.Perm (handleDragEnd layers dest src) layers := by
  cases dest with
  | none => exact List.Perm.refl _
  | some dst =>
    unfold handleDragEnd
    cases h : layers[src]? with
    | none => exact List.Perm.refl _
    | some item =>
      obtain ⟨hsrc, hget⟩ := List.getElem?_eq_some.1 h
      have hlayers : layers = layers.take src ++ item :: layers.drop (src + 1) := by
        conv_lhs => rw [← List.take_append_drop src layers]
        rw [List.drop_eq_getElem_cons hsrc, hget]
      set items := layers.take src ++ layers.drop (src + 1) with hitems
      have h1 : List.Perm (items.take dst ++ item :: items.drop dst)
          (item :: (items.take dst ++ items.drop dst)) := List.perm_middle
      rw [List.take_append_drop] at h1
      have h2 : List.Perm (item :: items) layers := by
        conv_rhs => rw [hlayers]
        exact List.perm_middle.symm
      exact h1.trans h2

/-- Claim C9: a drag-reorder with a valid source index permutes the layer
sequence — the multiset of layers (hence of their identifiers) is preserved
and no element is altered — and a drop without destination changes nothing. -/
theorem c9_reorder_perm (layers : List Layer) (src dst : ℕ)
    (hsrc : src < layers.length) :
    List.Perm (handleDragEnd layers (some dst) src) layers ∧
    List.Perm ((handleDragEnd layers (some dst) src).map Layer.id)
      (layers.map Layer.id) ∧
    (∀ l ∈ handleDragEnd layers (some dst) src, l ∈ layers) ∧
    handleDragEnd layers none src = layers := by
  refine ⟨handleDragEnd_perm layers (some dst) src,
    (handleDragEnd_perm layers (some dst) src).map Layer.id, ?_, rfl⟩
  exact fun l hl => (handleDragEnd_perm layers (some dst) src).mem_iff.1 hl

/-- Witness for C9 at concrete inputs: a two-layer store, source 0,
destination 1. -/
theorem c9_reorder_perm_witness :
    (0 < [mkGeoJSONLayer "a.geojson" 0 [], mkGeoJSONLayer "b.geojson" 1 []].length) ∧
    List.Perm
      (handleDragEnd [mkGeoJSONLayer "a.geojson" 0 [], mkGeoJSONLayer "b.geojson" 1 []]
        (some 1) 0)
      [mkGeoJSONLayer "a.geojson" 0 [], mkGeoJSONLayer "b.geojson" 1 []] :=
  ⟨by simp,
   (c9_reorder_perm [mkGeoJSONLayer "a.geojson" 0 [], mkGeoJSONLayer "b.geojson" 1 []]
     0 1 (by simp)).1⟩

/-- Claim C10: each of the four layer-creation paths (GeoTIFF upload,
GeoPackage import, GeoJSON upload, inference result) builds its layer with
the visible flag set, and every layer such an ingestion adds to the store
(i.e. every layer of the result that is not an original store element) is
visible. -/
theorem c10_created_layers_visible :
    (∀ fn now fs, (mkGeoJSONLayer fn now fs).visible = true) ∧
    (∀ fn now colorOf t, (mkGpkgLayer fn now colorOf t).visible = true) ∧
    (∀ fn now g u fb, (mkRasterLayer fn now g u fb).visible = true) ∧
    (∀ now rn bs d, (mkDelineatedLayer now rn bs d).visible = true) ∧
    (∀ fn now j st, ∀ l ∈ (ingestGeoJSON fn now j st).1, l ∈ st ∨ l.visible = true) ∧
    (∀ fn now colorOf ts st, ∀ l ∈ (ingestGpkg fn now colorOf ts st).1,
      l ∈ st ∨ l.visible = true) ∧
    (∀ rp fn now g u st, ∀ l ∈ (ingestGeoTiff rp fn now g u st).1,
      l ∈ st ∨ l.visible = true) ∧
    (∀ now rn bs d st, ∀ l ∈ (mkDelineatedLayer now rn bs d :: st),
      l ∈ st ∨ l.visible = true) := by
  refine ⟨fun _ _ _ => rfl, fun _ _ _ _ => rfl, fun _ _ _ _ _ => rfl,
    fun _ _ _ _ => rfl, ?_, ?_, ?_, ?_⟩
  · intro fn now j st l hl
    cases j with
    | featureCollection fs =>
      rcases List.mem_cons.1 hl with h | h
      · exact Or.inr (h ▸ rfl)
      · exact Or.inl h
    | feature f =>
      rcases List.mem_cons.1 hl with h | h
      · exact Or.inr (h ▸ rfl)
      · exact Or.inl h
    | other => exact Or.inl hl
  · intro fn now colorOf ts st l hl
    unfold ingestGpkg at hl
    by_cases hempty :
        (((ts.filter (fun t => !t.features.isEmpty)).map (mkGpkgLayer fn now colorOf)).isEmpty :
          Bool) = true
    · simp only [hempty, if_true] at hl
      exact Or.inl hl
    · simp only [hempty, Bool.false_eq_true, if_false] at hl
      rcases List.mem_append.1 hl with h | h
      · rcases List.mem_map.1 h with ⟨t, _, ht⟩
        exact Or.inr (ht ▸ rfl)
      · exact Or.inl h
  · intro rp fn now g u st l hl
    unfold ingestGeoTiff at hl
    rcases List.mem_cons.1 hl with h | h
    · exact Or.inr (h ▸ rfl)
    · exact Or.inl h
  · intro now rn bs d st l hl
    rcases List.mem_cons.1 hl with h | h
    · exact Or.inr (h ▸ rfl)
    · exact Or.inl h

/-- Witness for C10 at concrete inputs: the layer the GeoJSON path adds to an
empty store is visible. -/
theorem c10_created_layers_visible_witness :
    (mkGeoJSONLayer "a.geojson" 0 []) ∈
      (ingestGeoJSON "a.geojson" 0 (ParsedJson.featureCollection []) []).1 ∧
    ((mkGeoJSONLayer "a.geojson" 0 []) ∈ ([] : List Layer) ∨
      (mkGeoJSONLayer "a.geojson" 0 []).visible = true) := by
  constructor
  · exact List.mem_cons_self _ _
  · exact c10_created_layers_visible.2.2.2.2.1 "a.geojson" 0
      (ParsedJson.featureCollection []) [] _ (List.mem_cons_self _ _)

/-- Claim C3: when the effective CRS identifier is absent or is EPSG:4326, the
normalizer passes the native bounding box through unchanged (no warning), and
the created layer stores exactly the native box rearranged to
`[[south, west], [north, east]]`. -/
theorem c3_crs_identity (reproject : ℕ → ℚ × ℚ → Option (ℚ × ℚ))
    (fn : String) (now : ℕ) (g : GeoTiff) (u : String) (store : List Layer)
    (h : jsOrNum g.projectedCSTypeGeoKey g.geographicTypeGeoKey = none ∨
         jsOrNum g.projectedCSTypeGeoKey g.geographicTypeGeoKey = some 4326) :
    (normalizeBounds reproject
        (jsOrNum g.projectedCSTypeGeoKey g.geographicTypeGeoKey) g.bbox).finalBounds
      = g.bbox ∧
    (ingestGeoTiff reproject fn now g u store).2 = false ∧
    ∃ L, (ingestGeoTiff reproject fn now g u store).1 = L :: store ∧
      L.rasterBounds = some ⟨g.bbox.minY, g.bbox.minX, g.bbox.maxY, g.bbox.maxX⟩ := by
  unfold ingestGeoTiff
  rcases h with h | h <;>
    rw [h] <;>
    exact ⟨rfl, rfl, _, rfl, rfl⟩

/-- Witness for C3 at a concrete input: a GeoTIFF with no geo keys and native
box [3, 4, 5, 6]. -/
theorem c3_crs_identity_witness :
    ((jsOrNum (GeoTiff.mk 1 1 [] false ⟨3, 4, 5, 6⟩ none none).projectedCSTypeGeoKey
        (GeoTiff.mk 1 1 [] false ⟨3, 4, 5, 6⟩ none none).geographicTypeGeoKey = none) ∨
      (jsOrNum (GeoTiff.mk 1 1 [] false ⟨3, 4, 5, 6⟩ none none).projectedCSTypeGeoKey
        (GeoTiff.mk 1 1 [] false ⟨3, 4, 5, 6⟩ none none).geographicTypeGeoKey = some 4326)) ∧
    ((ingestGeoTiff (fun _ _ => none) "x.tif" 0
        (GeoTiff.mk 1 1 [] false ⟨3, 4, 5, 6⟩ none none) "url" []).2 = false ∧
      ∃ L, (ingestGeoTiff (fun _ _ => none) "x.tif" 0
          (GeoTiff.mk 1 1 [] false ⟨3, 4, 5, 6⟩ none none) "url" []).1 = L :: [] ∧
        L.rasterBounds = some ⟨4, 3, 6, 5⟩) := by
  refine ⟨Or.inl rfl, ?_⟩
  have h := c3_crs_identity (fun _ _ => none) "x.tif" 0
    (GeoTiff.mk 1 1 [] false ⟨3, 4, 5, 6⟩ none none) "url" [] (Or.inl rfl)
  exact ⟨h.2.1, h.2.2⟩

/-- Claim C4: when the effective CRS identifier is a genuine non-4326 code and
reprojecting either corner fails, the native bounds are kept, the non-fatal
warning fires, and the raster layer is still created and prepended to the
store. -/
theorem c4_reprojection_failure (reproject : ℕ → ℚ × ℚ → Option (ℚ × ℚ))
    (fn : String) (now : ℕ) (g : GeoTiff) (u : String) (store : List Layer)
    (c : ℕ)
    (hc : jsOrNum g.projectedCSTypeGeoKey g.geographicTypeGeoKey = some c)
    (hc0 : c ≠ 0) (hc4326 : c ≠ 4326)
    (hfail : reproject c (g.bbox.minX, g.bbox.minY) = none ∨
             reproject c (g.bbox.maxX, g.bbox.maxY) = none) :
    (ingestGeoTiff reproject fn now g u store).2 = true ∧
    ∃ L, (ingestGeoTiff reproject fn now g u store).1 = L :: store ∧
      L.rasterBounds = some (swapToBounds g.bbox) ∧
      L.visible = true ∧ L.type = LayerType.raster := by
  have hnorm : normalizeBounds reproject (some c) g.bbox = ⟨g.bbox, true⟩ := by
    show (if c ≠ 0 ∧ c ≠ 4326 then _ else _) = _
    rw [if_pos (⟨hc0, hc4326⟩ : c ≠ 0 ∧ c ≠ 4326)]
    rcases hfail with h | h
    · rw [h]
    · cases h1 : reproject c (g.bbox.minX, g.bbox.minY) with
      | none => rfl
      | some p => rw [h]
  have key : ingestGeoTiff reproject fn now g u store =
      (mkRasterLayer fn now g u g.bbox :: store, true) := by
    show (mkRasterLayer fn now g u
        (normalizeBounds reproject (jsOrNum g.projectedCSTypeGeoKey g.geographicTypeGeoKey)
          g.bbox).finalBounds :: store,
      (normalizeBounds reproject (jsOrNum g.projectedCSTypeGeoKey g.geographicTypeGeoKey)
          g.bbox).warned) = _
    rw [hc, hnorm]
  rw [key]
  exact ⟨rfl, _, rfl, rfl, rfl, rfl⟩

/-- Witness for C4 at a concrete input: EPSG code 32633 whose reprojection
always fails. -/
theorem c4_reprojection_failure_witness :
    (jsOrNum (GeoTiff.mk 1 1 [] false ⟨3, 4, 5, 6⟩ (some 32633) none).projectedCSTypeGeoKey
      (GeoTiff.mk 1 1 [] false ⟨3, 4, 5, 6⟩ (some 32633) none).geographicTypeGeoKey
      = some 32633) ∧
    ((ingestGeoTiff (fun _ _ => none) "x.tif" 0
        (GeoTiff.mk 1 1 [] false ⟨3, 4, 5, 6⟩ (some 32633) none) "url" []).2 = true ∧
      ∃ L, (ingestGeoTiff (fun _ _ => none) "x.tif" 0
          (GeoTiff.mk 1 1 [] false ⟨3, 4, 5, 6⟩ (some 32633) none) "url" []).1 = L :: [] ∧
        L.rasterBounds = some (swapToBounds ⟨3, 4, 5, 6⟩) ∧
        L.visible = true ∧ L.type = LayerType.raster) := by
  refine ⟨rfl, ?_⟩
  exact c4_reprojection_failure (fun _ _ => none) "x.tif" 0
    (GeoTiff.mk 1 1 [] false ⟨3, 4, 5, 6⟩ (some 32633) none) "url" [] 32633
    rfl (by decide) (by decide) (Or.inl rfl)

theorem toUint8Clamp_mem (q : ℚ) : 0 ≤ toUint8Clamp q ∧ toUint8Clamp q ≤ 255 := by
  unfold toUint8Clamp
  by_cases h0 : q ≤ 0
  · simp [h0]
  · rw [if_neg h0]
    by_cases h255 : (255 : ℚ) ≤ q
    · simp [h255]
    · rw [if_neg h255]
      push_neg at h0 h255
      have hf0 : (0 : ℤ) ≤ ⌊q⌋ := by
        rw [Int.le_floor]
        exact_mod_cast le_of_lt h0
      have hf255 : ⌊q⌋ + 1 ≤ 255 := by
        have hlt : ⌊q⌋ < (255 : ℤ) := by
          rw [Int.floor_lt]
          exact_mod_cast h255
        omega
      refine ⟨?_, ?_⟩ <;> (dsimp only; split_ifs <;> omega)

theorem channelValue_mem (b : Bool) (v : ℚ) :
    0 ≤ channelValue b v ∧ channelValue b v ≤ 255 := by
  unfold channelValue
  cases b with
  | false => simpa using toUint8Clamp_mem v
  | true => simpa using toUint8Clamp_mem ((max 0 (min 255 (jsRound (v * 255))) : ℤ) : ℚ)

theorem channelValue_int_128 : channelValue false 128 = 128 := by
  unfold channelValue toUint8Clamp
  norm_num

/-- Claim C2: the pixel loop writes alpha 255 and channels within [0, 255] for
every pixel of every raster; a single-band raster replicates band 0 into all
three channels; and a single-band integer raster with uniform value 128 yields
(128, 128, 128, 255) at every pixel. -/
theorem c2_rasterize (g : GeoTiff) (b0 : ℕ → ℚ)
    (hint : g.isFloat = false) (hb : g.bands = [b0]) (h128 : ∀ i, b0 i = 128) :
    (∀ i, rasterPixel g i = some (128, 128, 128, 255)) ∧
    (∀ (g' : GeoTiff) (i : ℕ) (p : ℤ × ℤ × ℤ × ℤ), rasterPixel g' i = some p →
      p.2.2.2 = 255 ∧ 0 ≤ p.1 ∧ p.1 ≤ 255 ∧ 0 ≤ p.2.1 ∧ p.2.1 ≤ 255 ∧
      0 ≤ p.2.2.1 ∧ p.2.2.1 ≤ 255) ∧
    (∀ (g' : GeoTiff) (b : ℕ → ℚ), g'.bands = [b] → ∀ i, ∃ c,
      rasterPixel g' i = some (c, c, c, 255)) := by
  refine ⟨?_, ?_, ?_⟩
  · intro i
    have hpix : rasterPixel g i = some (channelValue g.isFloat (b0 i),
        channelValue g.isFloat (b0 i), channelValue g.isFloat (b0 i), 255) := by
      unfold rasterPixel
      rw [hb]
      rfl
    rw [hpix, hint, h128 i, channelValue_int_128]
  · intro g' i p hp
    unfold rasterPixel at hp
    cases hbands : g'.bands with
    | nil =>
      rw [hbands] at hp
      cases hp
    | cons c0 rest =>
      rw [hbands] at hp
      have hp' : (channelValue g'.isFloat (c0 i),
          channelValue g'.isFloat (match rest[0]? with | some b1 => b1 i | none => c0 i),
          channelValue g'.isFloat (match rest[1]? with | some b2 => b2 i | none => c0 i),
          (255 : ℤ)) = p := by
        exact Option.some.inj hp
      rw [← hp']
      refine ⟨rfl, ?_, ?_, ?_, ?_, ?_, ?_⟩ <;>
        first
          | exact (channelValue_mem g'.isFloat _).1
          | exact (channelValue_mem g'.isFloat _).2
  · intro g' b hb' i
    refine ⟨channelValue g'.isFloat (b i), ?_⟩
    unfold rasterPixel
    rw [hb']
    rfl

/-- Witness for C2 at a concrete input: a 2x2 single-band integer raster whose
samples are all 128, evaluated at pixel 0. -/
theorem c2_rasterize_witness :
    ((GeoTiff.mk 2 2 [fun _ => (128 : ℚ)] false ⟨0, 0, 1, 1⟩ none none).isFloat = false) ∧
    ((GeoTiff.mk 2 2 [fun _ => (128 : ℚ)] false ⟨0, 0, 1, 1⟩ none none).bands
      = [fun _ => (128 : ℚ)]) ∧
    (∀ i : ℕ, (fun _ => (128 : ℚ)) i = 128) ∧
    rasterPixel (GeoTiff.mk 2 2 [fun _ => (128 : ℚ)] false ⟨0, 0, 1, 1⟩ none none) 0 =
      some (128, 128, 128, 255) := by
  refine ⟨rfl, rfl, fun _ => rfl, ?_⟩
  exact (c2_rasterize (GeoTiff.mk 2 2 [fun _ => (128 : ℚ)] false ⟨0, 0, 1, 1⟩ none none)
    (fun _ => (128 : ℚ)) rfl rfl (fun _ => rfl)).1 0

theorem turfFold_spec (rest : List Position) (acc : BBox4) :
    (rest.foldl turfStep acc).minX ≤ acc.minX ∧
    (rest.foldl turfStep acc).minY ≤ acc.minY ∧
    acc.maxX ≤ (rest.foldl turfStep acc).maxX ∧
    acc.maxY ≤ (rest.foldl turfStep acc).maxY ∧
    ∀ p ∈ rest,
      (rest.foldl turfStep acc).minX ≤ p.lon ∧ p.lon ≤ (rest.foldl turfStep acc).maxX ∧
      (rest.foldl turfStep acc).minY ≤ p.lat ∧ p.lat ≤ (rest.foldl turfStep acc).maxY := by
  induction rest generalizing acc with
  | nil => simp
  | cons q qs ih =>
    simp only [List.foldl_cons]
    obtain ⟨h1, h2, h3, h4, h5⟩ := ih (turfStep acc q)
    have s1 : (turfStep acc q).minX ≤ acc.minX := min_le_left _ _
    have s1q : (turfStep acc q).minX ≤ q.lon := min_le_right _ _
    have s2 : (turfStep acc q).minY ≤ acc.minY := min_le_left _ _
    have s2q : (turfStep acc q).minY ≤ q.lat := min_le_right _ _
    have s3 : acc.maxX ≤ (turfStep acc q).maxX := le_max_left _ _
    have s3q : q.lon ≤ (turfStep acc q).maxX := le_max_right _ _
    have s4 : acc.maxY ≤ (turfStep acc q).maxY := le_max_left _ _
    have s4q : q.lat ≤ (turfStep acc q).maxY := le_max_right _ _
    refine ⟨le_trans h1 s1, le_trans h2 s2, le_trans s3 h3, le_trans s4 h4, ?_⟩
    intro p hp
    rcases List.mem_cons.1 hp with rfl | hp
    · exact ⟨le_trans h1 s1q, le_trans s3q h3, le_trans h2 s2q, le_trans s4q h4⟩
    · exact h5 p hp

theorem turfBbox_contains (ps : List Position) (bb : BBox4)
    (h : turfBbox ps = some bb) :
    ∀ p ∈ ps, bb.minX ≤ p.lon ∧ p.lon ≤ bb.maxX ∧ bb.minY ≤ p.lat ∧ p.lat ≤ bb.maxY := by
  cases ps with
  | nil => cases h
  | cons p0 rest =>
    have hbb : bb = rest.foldl turfStep ⟨p0.lon, p0.lat, p0.lon, p0.lat⟩ :=
      (Option.some.inj h).symm
    obtain ⟨h1, h2, h3, h4, h5⟩ := turfFold_spec rest ⟨p0.lon, p0.lat, p0.lon, p0.lat⟩
    subst hbb
    intro p hp
    rcases List.mem_cons.1 hp with rfl | hp
    · exact ⟨h1, h3, h2, h4⟩
    · exact h5 p hp

/-- Claim C6: ingesting a FeatureCollection with N features produces exactly
one new vector layer, named after the file with its extension removed, whose
metadata list has exactly N entries; each entry takes its display name from
the `name` or `id` property with positional fallback `Feature <i+1>`, its
bounds are the turf bounding box of the feature geometry rearranged to
`[[south, west], [north, east]]`, and those bounds contain every position of
the geometry. -/
theorem c6_geojson_ingest (fileName : String) (now : ℕ) (fs : List Feature)
    (store : List Layer) (i : ℕ) (hi : i < fs.length) :
    ∃ L : Layer,
      (ingestGeoJSON fileName now (ParsedJson.featureCollection fs) store).1 = L :: store ∧
      (ingestGeoJSON fileName now (ParsedJson.featureCollection fs) store).2 = false ∧
      L.type = LayerType.vector ∧
      L.name = stripExtension fileName ∧
      ∃ ms : List FeatureMetadata, L.features = some ms ∧
        ms.length = fs.length ∧
        ms[i]? = some
          { id := "geojson-feature-" ++ toString i
            name := jsOrStr (fs.get ⟨i, hi⟩).propName
              (jsOrStr (fs.get ⟨i, hi⟩).propId ("Feature " ++ toString (i + 1)))
            bounds := (turfBbox (fs.get ⟨i, hi⟩).coords).map swapToBounds } ∧
        (∀ b' : Bounds,
          (turfBbox (fs.get ⟨i, hi⟩).coords).map swapToBounds = some b' →
          ∀ p ∈ (fs.get ⟨i, hi⟩).coords,
            b'.west ≤ p.lon ∧ p.lon ≤ b'.east ∧
            b'.south ≤ p.lat ∧ p.lat ≤ b'.north) := by
  refine ⟨mkGeoJSONLayer fileName now fs, rfl, rfl, rfl, rfl,
    List.mapIdx (featureMeta "geojson") fs, rfl, ?_, ?_, ?_⟩
  · simp
  · have hi' : i < (List.mapIdx (featureMeta "geojson") fs).length := by simpa using hi
    rw [List.getElem?_eq_getElem hi',
      show (List.mapIdx (featureMeta "geojson") fs)[i] =
        (List.mapIdx (featureMeta "geojson") fs).get ⟨i, hi'⟩ from rfl,
      List.get_mapIdx fs (featureMeta "geojson") i hi]
    rfl
  · intro b' hb' p hp
    cases ht : turfBbox (fs.get ⟨i, hi⟩).coords with
    | none =>
      rw [ht] at hb'
      cases hb'
    | some bb =>
      rw [ht] at hb'
      have hb'' : swapToBounds bb = b' := Option.some.inj hb'
      subst hb''
      exact turfBbox_contains _ bb ht p hp

/-- Witness for C6 at concrete inputs: the scenario of uploading a 2-feature
collection named `fields.geojson` (checking its second feature, index 1):
exactly one new vector layer named `fields` with 2 metadata entries. -/
theorem c6_geojson_ingest_witness :
    (1 < ([⟨some "A", none, [⟨0, 0⟩]⟩,
           ⟨none, none, [⟨1, 1⟩, ⟨2, 3⟩]⟩] : List Feature).length) ∧
    stripExtension "fields.geojson" = "fields" ∧
    ∃ L : Layer,
      (ingestGeoJSON "fields.geojson" 7 (ParsedJson.featureCollection
          [⟨some "A", none, [⟨0, 0⟩]⟩, ⟨none, none, [⟨1, 1⟩, ⟨2, 3⟩]⟩]) []).1 = L :: [] ∧
      L.name = stripExtension "fields.geojson" ∧
      ∃ ms : List FeatureMetadata, L.features = some ms ∧ ms.length = 2 := by
  refine ⟨by decide, by decide, ?_⟩
  obtain ⟨L, h1, _, _, h4, ms, h5, h6, _, _⟩ :=
    c6_geojson_ingest "fields.geojson" 7
      [⟨some "A", none, [⟨0, 0⟩]⟩, ⟨none, none, [⟨1, 1⟩, ⟨2, 3⟩]⟩] [] 1 (by decide)
  exact ⟨L, h1, h4, ms, h5, by rw [h6]; rfl⟩

theorem ingestGpkg_fst (fileName : String) (now : ℕ) (colorOf : String → String)
    (tables : List GpkgTable) (store : List Layer) :
    (ingestGpkg fileName now colorOf tables store).1 =
      (tables.filter (fun t => !t.features.isEmpty)).map (mkGpkgLayer fileName now colorOf)
        ++ store := by
  unfold ingestGpkg
  by_cases hemp : ((tables.filter (fun t => !t.features.isEmpty)).map
      (mkGpkgLayer fileName now colorOf)).isEmpty = true
  · rw [if_pos hemp, List.isEmpty_iff.1 hemp]
    rfl
  · rw [if_neg hemp]

theorem ingestGpkg_snd (fileName : String) (now : ℕ) (colorOf : String → String)
    (tables : List GpkgTable) (store : List Layer) :
    (ingestGpkg fileName now colorOf tables store).2 =
      ((tables.filter (fun t => !t.features.isEmpty)).map
        (mkGpkgLayer fileName now colorOf)).isEmpty := by
  unfold ingestGpkg
  by_cases hemp : ((tables.filter (fun t => !t.features.isEmpty)).map
      (mkGpkgLayer fileName now colorOf)).isEmpty = true
  · rw [if_pos hemp, hemp]
  · rw [if_neg hemp]
    simp only [Bool.not_eq_true] at hemp
    rw [hemp]

theorem gpkg_filter_nil_iff (tables : List GpkgTable) :
    tables.filter (fun t => !t.features.isEmpty) = [] ↔
      ∀ t ∈ tables, t.features = [] := by
  rw [List.filter_eq_nil_iff]
  constructor
  · intro h t ht
    have := h t ht
    simpa using this
  · intro h t ht
    simpa using h t ht

/-- Claim C7: GeoPackage ingestion produces exactly one layer per non-empty
feature table and none for empty tables; with zero extractable features the
store is unchanged and the explicit empty-result alert fires — and the alert
fires only in that case. Each produced layer carries its table name, the
table rows as its data, and one metadata entry per row. -/
theorem c7_gpkg_ingest (fileName : String) (now : ℕ) (colorOf : String → String)
    (tables : List GpkgTable) (store : List Layer) :
    ((∀ t ∈ tables, t.features = []) ↔
      ((ingestGpkg fileName now colorOf tables store).2 = true ∧
       (ingestGpkg fileName now colorOf tables store).1 = store)) ∧
    (ingestGpkg fileName now colorOf tables store).1.length =
      (tables.filter (fun t => !t.features.isEmpty)).length + store.length ∧
    (∀ t ∈ tables, t.features ≠ [] →
      ∃ L ∈ (ingestGpkg fileName now colorOf tables store).1,
        L.name = t.name ∧ L.data = some t.features ∧ L.type = LayerType.vector ∧
        L.visible = true ∧
        ∃ ms : List FeatureMetadata, L.features = some ms ∧
          ms.length = t.features.length) := by
  refine ⟨?_, ?_, ?_⟩
  · constructor
    · intro hall
      have hnil : tables.filter (fun t => !t.features.isEmpty) = [] :=
        (gpkg_filter_nil_iff tables).2 hall
      constructor
      · rw [ingestGpkg_snd, hnil]
        rfl
      · rw [ingestGpkg_fst, hnil]
        rfl
    · intro ⟨halert, _⟩
      rw [ingestGpkg_snd] at halert
      have hnil : (tables.filter (fun t => !t.features.isEmpty)).map
          (mkGpkgLayer fileName now colorOf) = [] := List.isEmpty_iff.1 halert
      rw [List.map_eq_nil_iff] at hnil
      exact (gpkg_filter_nil_iff tables).1 hnil
  · rw [ingestGpkg_fst, List.length_append, List.length_map]
  · intro t ht hne
    refine ⟨mkGpkgLayer fileName now colorOf t, ?_, rfl, rfl, rfl, rfl,
      List.mapIdx (featureMeta t.name) t.features, rfl, by simp⟩
    rw [ingestGpkg_fst]
    apply List.mem_append_left
    apply List.mem_map_of_mem
    rw [List.mem_filter]
    refine ⟨ht, ?_⟩
    simpa using hne

/-- Witness for C7 at concrete inputs: a GeoPackage with one single-feature
table `t1` and one empty table ingested into an empty store yields exactly one
layer, for table `t1`. -/
theorem c7_gpkg_ingest_witness :
    ((⟨"t1", [⟨none, none, [⟨0, 0⟩]⟩]⟩ : GpkgTable) ∈
      ([⟨"t1", [⟨none, none, [⟨0, 0⟩]⟩]⟩, ⟨"empty", []⟩] : List GpkgTable)) ∧
    (([⟨none, none, [⟨0, 0⟩]⟩] : List Feature) ≠ []) ∧
    (ingestGpkg "pack.gpkg" 3 (fun _ => "#112233")
      [⟨"t1", [⟨none, none, [⟨0, 0⟩]⟩]⟩, ⟨"empty", []⟩] []).1.length = 1 ∧
    ∃ L ∈ (ingestGpkg "pack.gpkg" 3 (fun _ => "#112233")
        [⟨"t1", [⟨none, none, [⟨0, 0⟩]⟩]⟩, ⟨"empty", []⟩] []).1,
      L.name = "t1" ∧ L.data = some [⟨none, none, [⟨0, 0⟩]⟩] := by
  have h := c7_gpkg_ingest "pack.gpkg" 3 (fun _ => "#112233")
    [⟨"t1", [⟨none, none, [⟨0, 0⟩]⟩]⟩, ⟨"empty", []⟩] []
  refine ⟨by simp, by simp, ?_, ?_⟩
  · rw [h.2.1]
    rfl
  · obtain ⟨L, hmem, hname, hdata, _⟩ := h.2.2 ⟨"t1", [⟨none, none, [⟨0, 0⟩]⟩]⟩
      (by simp) (by simp)
    exact ⟨L, hmem, hname, hdata⟩

theorem handleToggleLayer_ids (i : String) (st : List Layer) :
    (handleToggleLayer i st).map Layer.id = st.map Layer.id := by
  unfold handleToggleLayer
  rw [List.map_map]
  apply List.map_congr_left
  intro l _
  by_cases h : l.id = i <;> simp [Function.comp, h]

theorem handleRemoveLayer_ids_sublist (i : String) (st : List Layer) :
    List.Sublist ((handleRemoveLayer i st).map Layer.id) (st.map Layer.id) :=
  (List.filter_sublist st).map Layer.id

/-- Claim C5, amended: provided every creation step adds layers whose
identifiers are pairwise distinct and not already present (the code derives
them from `Date.now()` and the table name, with no other uniqueness
enforcement), a store with distinct identifiers keeps them distinct under any
sequence of operations; removal, toggling and drag-reorder preserve
uniqueness unconditionally. -/
theorem c5_unique_ids_amended (init : List Layer) (ops : List StoreOp)
    (hinit : (init.map Layer.id).Nodup) (hrun : FreshRun init ops) :
    ((applyOps init ops).map Layer.id).Nodup := by
  induction ops generalizing init with
  | nil => exact hinit
  | cons op rest ih =>
    obtain ⟨hnd, hdisj, hrest⟩ := hrun
    have hadd : ∀ added : List Layer, applyOp init op = added ++ init →
        (added.map Layer.id).Nodup → (∀ l ∈ added, l.id ∉ init.map Layer.id) →
        ((applyOp init op).map Layer.id).Nodup := by
      intro added heq hnd' hdisj'
      rw [heq, List.map_append, List.nodup_append]
      refine ⟨hnd', hinit, ?_⟩
      intro a ha hb
      rcases List.mem_map.1 ha with ⟨l, hl, rfl⟩
      exact hdisj' l hl hb
    have hstep : ((applyOp init op).map Layer.id).Nodup := by
      cases op with
      | uploadGeoJSON f n j =>
        cases j with
        | featureCollection fs =>
          exact hadd (addedLayers (StoreOp.uploadGeoJSON f n
            (ParsedJson.featureCollection fs))) rfl hnd hdisj
        | feature ft =>
          exact hadd (addedLayers (StoreOp.uploadGeoJSON f n
            (ParsedJson.feature ft))) rfl hnd hdisj
        | other =>
          exact hadd (addedLayers (StoreOp.uploadGeoJSON f n
            ParsedJson.other)) rfl hnd hdisj
      | uploadGpkg f n c ts =>
        exact hadd (addedLayers (StoreOp.uploadGpkg f n c ts))
          (ingestGpkg_fst f n c ts init) hnd hdisj
      | uploadGeoTiff rp f n g u =>
        exact hadd (addedLayers (StoreOp.uploadGeoTiff rp f n g u)) rfl hnd hdisj
      | delineate n rn bs d =>
        exact hadd (addedLayers (StoreOp.delineate n rn bs d)) rfl hnd hdisj
      | remove i =>
        exact List.Nodup.sublist (handleRemoveLayer_ids_sublist i init) hinit
      | toggle i =>
        show ((handleToggleLayer i init).map Layer.id).Nodup
        rw [handleToggleLayer_ids]
        exact hinit
      | dragEnd dest src =>
        exact (((handleDragEnd_perm init dest src).map Layer.id).nodup_iff).2 hinit
    exact ih (applyOp init op) hstep hrest

/-- Witness for C5 (amended) at concrete inputs: a fresh single-upload run on
the empty store. -/
theorem c5_unique_ids_amended_witness :
    ((([] : List Layer).map Layer.id).Nodup ∧
      FreshRun [] [StoreOp.uploadGeoJSON "a.geojson" 0 (ParsedJson.featureCollection [])]) ∧
    ((applyOps []
      [StoreOp.uploadGeoJSON "a.geojson" 0 (ParsedJson.featureCollection [])]).map
        Layer.id).Nodup := by
  have hfresh : FreshRun []
      [StoreOp.uploadGeoJSON "a.geojson" 0 (ParsedJson.featureCollection [])] := by
    refine ⟨by decide, ?_, trivial⟩
    intro l _
    simp
  exact ⟨⟨List.nodup_nil, hfresh⟩,
    c5_unique_ids_amended [] _ List.nodup_nil hfresh⟩

/-- Counterexample to C5 as stated: two GeoJSON uploads whose `Date.now()`
timestamps coincide (both 0) each create a layer with the identifier
`layer-0`, so after this sequence of store operations the store holds two
layers with the same identifier. -/
theorem c5_counterexample :
    ¬ ((applyOps []
        [StoreOp.uploadGeoJSON "a.geojson" 0 (ParsedJson.featureCollection []),
         StoreOp.uploadGeoJSON "b.geojson" 0 (ParsedJson.featureCollection [])]).map
        Layer.id).Nodup := by
  decide

end BoundDel
